import Mathlib

/-!
# Verification of the mcp-apps API-tools core

Shallow embedding of the authenticated API-calling component of the
`mcp-apps` repository (`api-tools` package) together with proofs about the
claims of its specification.

Embedded source files:
* `src/api-tools/src/services/simpleApiService.ts` — `ApiService.callApi`,
  `ApiService.buildUrl` (bearer/basic auth, single attempt);
* `src/api-tools/src/services/api-service.ts` (second document, the
  retry-capable `ApiService`) — `callApi` with retry/backoff loop;
* `src/api-tools/src/services/openapi-service.ts` — `OpenApiService.fetchSchema`
  and `OpenApiService.parseSchema`;
* `src/api-tools/src/tools/generateApiCallTool.ts` — `generateSchemaExample`;
* the token manager (`getAccessToken` / `acquireTokenWithNativeBroker`)
  reproduced in `src/api-tools/README.md`.

JavaScript runtime values are modelled by the `Json` inductive (with an
explicit `undefined` constructor for JavaScript `undefined`); external
collaborators (axios, MSAL, SwaggerParser) are modelled as oracles passed in
as arguments.  Fallible JavaScript code (code that can `throw`) is modelled
with `Except String`.
-/

set_option linter.unusedVariables false

/-- A JavaScript/JSON runtime value.  `undefined` models JavaScript `undefined`
(distinct from JSON `null`); numbers are modelled as integers, which covers
every value appearing in the embedded code. -/
inductive Json where
  | undefined : Json
  | null : Json
  | bool : Bool → Json
  | num : Int → Json
  | str : String → Json
  | arr : List Json → Json
  | obj : List (String × Json) → Json
deriving Repr, Inhabited

/-- JavaScript truthiness: `undefined`, `null`, `false`, `0` and `""` are
falsy, everything else (including `[]` and `{}`) is truthy. -/
def truthy : Json → Bool
  | .undefined => false
  | .null => false
  | .bool b => b
  | .num n => n != 0
  | .str s => s != ""
  | .arr _ => true
  | .obj _ => true

/-- First binding of a key in an association list (JavaScript objects have
unique keys, so this is object property lookup). -/
def lookupKey {α : Type} : List (String × α) → String → Option α
  | [], _ => none
  | (k0, v0) :: rest, k => if k0 = k then some v0 else lookupKey rest k

/-- JavaScript property assignment `o[k] = v`: an existing key keeps its
position and gets the new value, a new key is appended. -/
def setKey {α : Type} : List (String × α) → String → α → List (String × α)
  | [], k, v => [(k, v)]
  | (k0, v0) :: rest, k, v =>
    if k0 = k then (k0, v) :: rest else (k0, v0) :: setKey rest k v

/-- JavaScript property access `j.k` / `j["k"]`: field of an object, and
`undefined` on every non-object (the embedded code only dereferences
properties of values that cannot be `null`/`undefined` at that point). -/
def getField : Json → String → Json
  | .obj l, k => (lookupKey l k).getD .undefined
  | _, _ => .undefined

/-- JavaScript `a || b`. -/
def jsOr (a b : Json) : Json := if truthy a then a else b

/-- JavaScript `x[0]`: first array element, first character of a string (as a
one-character string), property `"0"` of an object, `undefined` otherwise. -/
def getIdx0 : Json → Json
  | .arr [] => .undefined
  | .arr (x :: _) => x
  | .str s =>
    match s.data with
    | [] => .undefined
    | c :: _ => .str (String.mk [c])
  | .obj l => (lookupKey l "0").getD .undefined
  | _ => .undefined

/-- JavaScript `x.length`: length of an array or string, property `"length"`
of an object, `undefined` otherwise. -/
def lengthOf : Json → Json
  | .arr l => .num l.length
  | .str s => .num s.length
  | .obj l => (lookupKey l "length").getD .undefined
  | _ => .undefined

/-- JavaScript `a || b` for an optional string against a string default, with
`undefined` and `""` falsy (used for `clientId || env || ''` etc.). -/
def jsOrStr (a : Option String) (b : String) : String :=
  match a with
  | some s => if s = "" then b else s
  | none => b

/-- JavaScript `a || b` for an optional number against a numeric default,
with `undefined` and `0` falsy (used for `config.retryCount || 3` and
`config.timeout || 30000`). -/
def jsOrNat (a : Option Nat) (b : Nat) : Nat :=
  match a with
  | some n => if n = 0 then b else n
  | none => b

/-! ## URL builder

`ApiService.buildUrl` of `simpleApiService.ts` (lines 71–89); the copy in
`api-service.ts` (lines 300–318) is character-identical.  `endpoint.endsWith('/')`,
`endpoint.slice(0, -1)` and `path.startsWith('/')` are modelled on the
character list of the string. -/

/-- JavaScript `s.endsWith('/')`. -/
def jsEndsWithSlash (s : String) : Bool := s.data.getLast? = some '/'

/-- JavaScript `s.slice(0, -1)`: the string without its last character. -/
def jsDropLastChar (s : String) : String := String.mk s.data.dropLast

/-- JavaScript `s.startsWith('/')`. -/
def jsStartsWithSlash (s : String) : Bool := s.data.head? = some '/'

/-- Uppercase hexadecimal digit. -/
def hexDigit (n : Nat) : Char :=
  if n < 10 then Char.ofNat (48 + n) else Char.ofNat (55 + n)

/-- `application/x-www-form-urlencoded` serialization of one byte, as
performed by `URLSearchParams.toString()`: bytes for `A–Z a–z 0–9 * - . _`
stay, space becomes `+`, everything else becomes `%XX` (uppercase hex). -/
def formEncodeByte (b : Nat) : String :=
  if (48 ≤ b ∧ b ≤ 57) ∨ (65 ≤ b ∧ b ≤ 90) ∨ (97 ≤ b ∧ b ≤ 122)
      ∨ b = 42 ∨ b = 45 ∨ b = 46 ∨ b = 95 then
    String.mk [Char.ofNat b]
  else if b = 32 then "+"
  else String.mk ['%', hexDigit (b / 16), hexDigit (b % 16)]

/-- Percent-encoding of a string per `URLSearchParams` (UTF-8 bytes,
form-urlencoded escaping). -/
def formEncode (s : String) : String :=
  String.join (s.toUTF8.toList.map (fun b => formEncodeByte b.toNat))

/-- `URLSearchParams.toString()` for a parameter map: `k=v` pairs joined
with `&`, both sides percent-encoded. -/
def paramsToString (qp : List (String × String)) : String :=
  String.intercalate "&" (qp.map (fun p => formEncode p.1 ++ "=" ++ formEncode p.2))

/-- `ApiService.buildUrl(endpoint, path?, queryParams?)`: strips one trailing
slash from the endpoint, prefixes the path with `/` when the path is present
and lacks one, and appends `?`-prefixed encoded query parameters when the
map is non-empty. -/
def buildUrl (endpoint : String) (path : Option String) (queryParams : List (String × String)) : String :=
  let baseUrl := if jsEndsWithSlash endpoint then jsDropLastChar endpoint else endpoint
  let formattedPath :=
    match path with
    | some p => if p = "" then "" else if jsStartsWithSlash p then p else "/" ++ p
    | none => ""
  let queryString := if queryParams = [] then "" else "?" ++ paramsToString queryParams
  baseUrl ++ formattedPath ++ queryString

/-! ### Lemmas about the URL-builder string operations -/

theorem jsEndsWithSlash_append_slash (e : String) : jsEndsWithSlash (e ++ "/") = true := by
  simp [jsEndsWithSlash, String.data_append]

theorem jsDropLastChar_append_slash (e : String) : jsDropLastChar (e ++ "/") = e := by
  have h : (e ++ "/").data = e.data ++ ['/'] := by simp [String.data_append]
  simp [jsDropLastChar, h, List.dropLast_concat]

theorem jsStartsWithSlash_slash_append (p : String) : jsStartsWithSlash ("/" ++ p) = true := by
  simp [jsStartsWithSlash, String.data_append]

theorem slash_append_ne_empty (p : String) : ("/" ++ p) ≠ "" := by
  intro h
  have h2 := congrArg String.data h
  simp [String.data_append] at h2

/-- **C5.** URL building normalizes slashes: `buildUrl("http://h/", "/p")`
equals `buildUrl("http://h", "p")`; exactly one trailing slash is stripped
from the endpoint; a leading slash is added to a path that lacks one; the
query string is appended (prefixed with `?`) exactly when the query-parameter
map is non-empty.  `buildUrl` is a total Lean function, so it is pure and
never raises. -/
theorem claim_C5_buildUrl_normalization (e p : String) (qp : List (String × String))
    (he : jsEndsWithSlash e = false) (hp : jsStartsWithSlash p = false)
    (hp0 : p ≠ "") (hq : qp ≠ []) :
    buildUrl "http://h/" (some "/p") [] = buildUrl "http://h" (some "p") []
    ∧ buildUrl (e ++ "/") (some p) qp = buildUrl e (some ("/" ++ p)) qp
    ∧ buildUrl e (some p) [] = e ++ ("/" ++ p)
    ∧ buildUrl e (some p) qp = e ++ ("/" ++ p) ++ ("?" ++ paramsToString qp) := by
  refine ⟨by rfl, ?_, ?_, ?_⟩
  · simp [buildUrl, jsEndsWithSlash_append_slash, jsDropLastChar_append_slash,
      jsStartsWithSlash_slash_append, slash_append_ne_empty, he, hp, hp0, hq]
  · simp [buildUrl, he, hp, hp0]
  · simp [buildUrl, he, hp, hp0, hq, String.append_assoc]

/-- Witness for C5 at a concrete endpoint, path and query map. -/
theorem claim_C5_buildUrl_normalization_witness :
    jsEndsWithSlash "http://h" = false ∧ jsStartsWithSlash "p" = false
    ∧ ("p" : String) ≠ "" ∧ ([("a", "b c")] : List (String × String)) ≠ []
    ∧ (buildUrl "http://h/" (some "/p") [] = buildUrl "http://h" (some "p") []
       ∧ buildUrl ("http://h" ++ "/") (some "p") [("a", "b c")]
           = buildUrl "http://h" (some ("/" ++ "p")) [("a", "b c")]
       ∧ buildUrl "http://h" (some "p") [] = "http://h" ++ ("/" ++ "p")
       ∧ buildUrl "http://h" (some "p") [("a", "b c")]
           = "http://h" ++ ("/" ++ "p") ++ ("?" ++ paramsToString [("a", "b c")])) :=
  ⟨by decide, by decide, by decide, by decide,
    claim_C5_buildUrl_normalization "http://h" "p" [("a", "b c")]
      (by decide) (by decide) (by decide) (by decide)⟩

/-! ## Simple API service (`simpleApiService.ts`)

`ApiService.callApi` of `simpleApiService.ts` (lines 27–69): a single axios
attempt; bearer and basic authentication headers are attached before the
request, and any thrown error is converted into a failure envelope.  The
axios transport is an oracle mapping the prepared request to an outcome
(axios with its default `validateStatus` resolves on 2xx and rejects
otherwise, so rejection may carry a response status). -/

/-- `authType` of `simpleApiService.ts` (`'bearer' | 'basic' | 'none'`,
optional). -/
inductive SimpleAuthType where
  | bearer
  | basic
  | noAuth
deriving Repr, DecidableEq

/-- `authConfig` of `simpleApiService.ts`. -/
structure SimpleAuthConfig where
  token : Option String := none
  username : Option String := none
  password : Option String := none
deriving Repr, DecidableEq

/-- `ApiRequestConfig` of `simpleApiService.ts`. -/
structure SimpleApiRequestConfig where
  endpoint : String
  method : String
  path : Option String := none
  queryParams : List (String × String) := []
  headers : List (String × String) := []
  body : Option Json := none
  authType : Option SimpleAuthType := none
  authConfig : Option SimpleAuthConfig := none

/-- The axios request assembled by `simpleApiService.ts` (`method`, `url`,
`headers`, `data`). -/
structure SimpleAxiosRequest where
  method : String
  url : String
  headers : List (String × String)
  data : Option Json

/-- Outcome of the single axios call in `simpleApiService.ts`: the promise
either resolves (status, data, headers) or rejects with an error that may
carry a response status (`error.response?.status`) and has a message. -/
inductive SimpleAxiosOutcome where
  | resolved (status : Nat) (data : Json) (respHeaders : List (String × String))
  | rejected (respStatus : Option Nat) (message : String)

/-- `ApiResponse` of `simpleApiService.ts`. -/
structure SimpleApiResponse where
  success : Bool
  status : Nat
  data : Option Json := none
  error : Option String := none
  headers : Option (List (String × String)) := none

/-- JavaScript truthiness of `config.authConfig?.token` and friends:
`undefined` and `""` are falsy. -/
def optStrTruthy : Option String → Bool
  | some s => s != ""
  | none => false

/-- Base64 alphabet. -/
def base64Chars : List Char :=
  "ABCDEFGHIJKLMNOPQRSTUVWXYZabcdefghijklmnopqrstuvwxyz0123456789+/".data

/-- Base64 encoding of a byte list (RFC 4648, `=` padding), as produced by
`Buffer.from(s).toString('base64')`. -/
def base64EncodeBytes : List Nat → String
  | [] => ""
  | [b1] =>
    String.mk [base64Chars.getD (b1 / 4) 'A',
               base64Chars.getD ((b1 % 4) * 16) 'A'] ++ "=="
  | [b1, b2] =>
    String.mk [base64Chars.getD (b1 / 4) 'A',
               base64Chars.getD ((b1 % 4) * 16 + b2 / 16) 'A',
               base64Chars.getD ((b2 % 16) * 4) 'A'] ++ "="
  | b1 :: b2 :: b3 :: rest =>
    String.mk [base64Chars.getD (b1 / 4) 'A',
               base64Chars.getD ((b1 % 4) * 16 + b2 / 16) 'A',
               base64Chars.getD ((b2 % 16) * 4 + b3 / 64) 'A',
               base64Chars.getD (b3 % 64) 'A'] ++ base64EncodeBytes rest

/-- `Buffer.from(s).toString('base64')` (UTF-8 bytes of `s`). -/
def base64Encode (s : String) : String :=
  base64EncodeBytes (s.toUTF8.toList.map (fun b => b.toNat))

/-- Header preparation of `simpleApiService.ts` lines 32–45: start from the
caller headers; set `Authorization` to `Bearer <token>` when
`authType === 'bearer'` and the token is truthy, else to
`Basic <base64(user:pass)>` when `authType === 'basic'` and the username is
truthy; otherwise leave the headers untouched. -/
def simplePrepareHeaders (config : SimpleApiRequestConfig) : List (String × String) :=
  let headers := config.headers
  if config.authType = some .bearer ∧ optStrTruthy (config.authConfig.bind (fun a => a.token)) then
    setKey headers "Authorization"
      ("Bearer " ++ ((config.authConfig.bind (fun a => a.token)).getD ""))
  else if config.authType = some .basic ∧ optStrTruthy (config.authConfig.bind (fun a => a.username)) then
    let username := (config.authConfig.bind (fun a => a.username)).getD ""
    let password := jsOrStr (config.authConfig.bind (fun a => a.password)) ""
    setKey headers "Authorization" ("Basic " ++ base64Encode (username ++ ":" ++ password))
  else
    headers

/-- `ApiService.callApi` of `simpleApiService.ts`: builds the URL and
headers, performs exactly one axios call and converts the outcome into an
`ApiResponse` envelope (`status: error.response?.status || 500` on
rejection).  Returns the envelope together with the request that was handed
to the transport. -/
def simpleCallApi (config : SimpleApiRequestConfig)
    (transport : SimpleAxiosRequest → SimpleAxiosOutcome) :
    SimpleApiResponse × SimpleAxiosRequest :=
  let url := buildUrl config.endpoint config.path config.queryParams
  let headers := simplePrepareHeaders config
  let request : SimpleAxiosRequest :=
    { method := config.method, url := url, headers := headers, data := config.body }
  (match transport request with
   | .resolved status data respHeaders =>
     { success := true, status := status, data := some data, headers := some respHeaders }
   | .rejected respStatus message =>
     { success := false,
       status := match respStatus with | some s => if s = 0 then 500 else s | none => 500,
       error := some (if message = "" then "Unknown error occurred" else message) },
   request)

/-- Concrete bearer descriptor with a missing token (for the C3
counterexample). -/
def c3Config : SimpleApiRequestConfig :=
  { endpoint := "http://h", method := "GET", path := some "p",
    authType := some .bearer, authConfig := some { token := none } }

/-- Transport stub for the C3 counterexample: the request reaches the
transport and resolves with HTTP 200. -/
def c3Transport : SimpleAxiosRequest → SimpleAxiosOutcome :=
  fun _ => .resolved 200 (.obj []) []

/-- **C3 counterexample.** With `authType="bearer"` and no token, `callApi`
does not fail with a `ConfigurationError`: the request is sent to the
transport without any `Authorization` header and the call simply returns the
transport's (successful) envelope. -/
theorem claim_C3_counterexample :
    (simpleCallApi c3Config c3Transport).1.success = true
    ∧ (simpleCallApi c3Config c3Transport).1.status = 200
    ∧ lookupKey (simpleCallApi c3Config c3Transport).2.headers "Authorization" = none
    ∧ (simpleCallApi c3Config c3Transport).1.error = none := by
  refine ⟨rfl, rfl, rfl, rfl⟩

/-- Looking up a key immediately after setting it yields the new value. -/
theorem lookupKey_setKey {α : Type} (l : List (String × α)) (k : String) (v : α) :
    lookupKey (setKey l k v) k = some v := by
  induction l with
  | nil => simp [setKey, lookupKey]
  | cons h t ih =>
    by_cases hk : h.1 = k
    · cases h; simp_all [setKey, lookupKey]
    · cases h; simp_all [setKey, lookupKey]

/-- **C3 (amended).** For every descriptor with `authType="bearer"`: if a
non-empty token `T` is configured, the outgoing `Authorization` header is
exactly `"Bearer " ++ T`; if the token is missing (or empty), no error is
raised — the headers are passed through unchanged and the transport is still
invoked with them. -/
theorem claim_C3_bearer_header (config : SimpleApiRequestConfig)
    (transport : SimpleAxiosRequest → SimpleAxiosOutcome)
    (hbear : config.authType = some .bearer) :
    (∀ a T, config.authConfig = some a → a.token = some T → T ≠ "" →
      lookupKey (simpleCallApi config transport).2.headers "Authorization"
        = some ("Bearer " ++ T))
    ∧ (optStrTruthy (config.authConfig.bind (fun a => a.token)) = false →
      (simpleCallApi config transport).2.headers = config.headers) := by
  constructor
  · intro a T ha hT hne
    have htr : optStrTruthy (config.authConfig.bind (fun x => x.token)) = true := by
      simp [ha, hT, optStrTruthy, hne]
    simp [simpleCallApi, simplePrepareHeaders, hbear, htr, ha, hT, optStrTruthy, hne,
      lookupKey_setKey]
  · intro hf
    simp [simpleCallApi, simplePrepareHeaders, hbear, hf]

/-- Witness for C3 (amended): a concrete bearer descriptor with token
`"tok"` produces exactly `Authorization: Bearer tok`. -/
theorem claim_C3_bearer_header_witness :
    ({ endpoint := "http://h", method := "GET",
       authType := some .bearer,
       authConfig := some { token := some "tok" } } : SimpleApiRequestConfig).authType
        = some .bearer
    ∧ lookupKey (simpleCallApi
        { endpoint := "http://h", method := "GET",
          authType := some .bearer, authConfig := some { token := some "tok" } }
        c3Transport).2.headers "Authorization" = some ("Bearer " ++ "tok") := by
  refine ⟨rfl, ?_⟩
  exact (claim_C3_bearer_header _ c3Transport rfl).1
    { token := some "tok" } "tok" rfl rfl (by decide)

/-! ## Retry-capable API service (`api-service.ts`, second document, lines 129–295)

`ApiService.callApi` with retry/backoff.  The request config passed to axios
sets `validateStatus: (status) => true`, so by the axios contract every
*received* HTTP response resolves the promise (it is handled by the
`response.status >= 400` check and never reaches the catch block); only
thrown errors — network errors without a response, `ECONNABORTED` timeouts,
or errors that carry a response — reach the retry classification.  The
transport oracle maps (attempt index, prepared request) to the axios promise
outcome; authentication (`getAuthorizationHeader`, lines 323–467, delegating
to MSAL / Azure Identity) is an `Except`-valued oracle.  The backoff sleep
(`setTimeout`) has no observable effect in the model. -/

mutual

/-- JavaScript string coercion `String(v)` (used by the defensive
`String(lastError)` branch of `callApi`). -/
def jsToStr : Json → String
  | .undefined => "undefined"
  | .null => "null"
  | .bool true => "true"
  | .bool false => "false"
  | .num n => toString n
  | .str s => s
  | .arr l => jsToStrElems l
  | .obj _ => "[object Object]"

/-- `Array.prototype.toString`: elements joined with commas, with `null`
and `undefined` elements rendered as empty strings. -/
def jsToStrElems : List Json → String
  | [] => ""
  | [x] => match x with | .null => "" | .undefined => "" | y => jsToStr y
  | x :: xs =>
    (match x with | .null => "" | .undefined => "" | y => jsToStr y) ++ "," ++ jsToStrElems xs

end

/-- `authType` of the retry-capable `ApiRequestConfig`
(`'msal' | 'azure-identity' | 'none'`). -/
inductive AuthType where
  | msal
  | azureIdentity
  | noAuth
deriving Repr, DecidableEq

/-- `ApiRequestConfig` of `api-service.ts` (retry-capable service). -/
structure ApiRequestConfig where
  endpoint : String
  method : String
  path : Option String := none
  queryParams : List (String × String) := []
  headers : List (String × String) := []
  body : Option Json := none
  authType : AuthType
  timeout : Option Nat := none
  retryCount : Option Nat := none

/-- The `response` object attached to a thrown `AxiosError`. -/
structure AxiosErrorResponse where
  status : Nat
  data : Json
  headers : List (String × String)

/-- The `AxiosRequestConfig` assembled by `callApi` (the `validateStatus`
member is the constant-true function and is therefore not represented as
data). -/
structure AxiosRequest where
  method : String
  url : String
  headers : List (String × String)
  data : Option Json
  timeout : Nat

/-- Outcome of one `axios(requestConfig)` call under
`validateStatus: () => true`: every received HTTP response `resolve`s;
a rejection is an `AxiosError` (with optional `code` and optional attached
response), a plain `Error`, or an arbitrary thrown value. -/
inductive AxiosOutcome where
  | resolved (status : Nat) (statusText : String) (data : Json) (respHeaders : List (String × String))
  | axiosError (code : Option String) (response : Option AxiosErrorResponse) (message : String)
  | jsError (message : String) (stack : String)
  | thrownValue (v : Json)

/-- `ApiResponse` of `api-service.ts`. -/
structure ApiResponse where
  success : Bool
  status : Nat
  data : Option Json := none
  error : Option String := none
  details : Option Json := none
  headers : Option (List (String × String)) := none

/-- The transient-error classification of `callApi` (lines 250–255): an
axios error with no response (network error), or with code `ECONNABORTED`
(timeout), or with an attached response whose status is 502, 503 or 504.
Non-axios errors are never transient. -/
def isTransientError : AxiosOutcome → Bool
  | .axiosError code response _ =>
    response.isNone
      || code == some "ECONNABORTED"
      || (match response with
          | some r => [502, 503, 504].contains r.status
          | none => false)
  | _ => false

/-- The error envelope built after the retry loop exits (lines 271–294):
status `error.response?.status || 500`, message, response data/headers when
present; `{stack}` details for plain errors; `String(lastError)` for
non-`Error` thrown values.  (`lastError` is never `null` here: the loop
always performs at least one attempt, so the initial
`'Unknown error occurred'` placeholder is unreachable for thrown errors.) -/
def finalErrorResponse : AxiosOutcome → ApiResponse
  | .axiosError _ response message =>
    { success := false,
      status := match response with
                | some r => if r.status = 0 then 500 else r.status
                | none => 500,
      error := some message,
      details := match response with | some r => some r.data | none => none,
      headers := match response with | some r => some r.headers | none => none }
  | .jsError message stack =>
    { success := false, status := 500, error := some message,
      details := some (.obj [("stack", .str stack)]) }
  | .thrownValue v =>
    { success := false, status := 500, error := some (jsToStr v) }
  | .resolved _ _ _ _ =>
    { success := false, status := 500, error := some "Unknown error occurred" }

/-- Lines 187–205: when `authType !== 'none'`, obtain the authorization
header; a thrown authentication error becomes an immediate 401 envelope
(modelled as the `Except.error` case), a falsy header is only warned about
and the headers stay unchanged. -/
def resolveHeaders (config : ApiRequestConfig) (authOutcome : Except String String) :
    Except String (List (String × String)) :=
  if config.authType = .noAuth then .ok config.headers
  else
    match authOutcome with
    | .error msg => .error msg
    | .ok h => .ok (if h = "" then config.headers else setKey config.headers "Authorization" h)

/-- One iteration of the `while (retryCount <= maxRetries)` loop of
`callApi` at axios-attempt index `attempt` with `remaining` retries left
(`remaining = maxRetries - retryCount`).  Returns the envelope together
with the number of transport invocations performed.  A received response
with status `>= 400` returns `success:false` immediately (no retry); a
thrown transient error with retries remaining recurses after the backoff
delay; anything else breaks out to `finalErrorResponse`. -/
def attemptLoop (config : ApiRequestConfig) (authOutcome : Except String String)
    (transport : Nat → AxiosRequest → AxiosOutcome) :
    Nat → Nat → ApiResponse × Nat
  | attempt, remaining =>
    match resolveHeaders config authOutcome with
    | .error msg =>
      ({ success := false, status := 401,
         error := some ("Authentication error: "
           ++ (if msg = "" then "Unknown authentication error" else msg)) }, 0)
    | .ok headers =>
      let request : AxiosRequest :=
        { method := config.method,
          url := buildUrl config.endpoint config.path config.queryParams,
          headers := headers,
          data := config.body,
          timeout := jsOrNat config.timeout 30000 }
      match transport attempt request with
      | .resolved status statusText data respHeaders =>
        if 400 ≤ status then
          ({ success := false, status := status,
             error := some ("HTTP Error: " ++ toString status ++ " " ++ statusText),
             details := some data, headers := some respHeaders }, 1)
        else
          ({ success := true, status := status, data := some data,
             headers := some respHeaders }, 1)
      | outcome =>
        if isTransientError outcome then
          match remaining with
          | rem + 1 =>
            let next := attemptLoop config authOutcome transport (attempt + 1) rem
            (next.1, next.2 + 1)
          | 0 => (finalErrorResponse outcome, 1)
        else (finalErrorResponse outcome, 1)

/-- `ApiService.callApi` of the retry-capable service: runs the retry loop
with `maxRetries = config.retryCount || 3` retries available, starting at
attempt 0.  Result: the `ApiResponse` envelope and the number of transport
invocations. -/
def callApi (config : ApiRequestConfig) (authOutcome : Except String String)
    (transport : Nat → AxiosRequest → AxiosOutcome) : ApiResponse × Nat :=
  attemptLoop config authOutcome transport 0 (jsOrNat config.retryCount 3)

/-- Every envelope produced by the retry loop with status `>= 400` has
`success = false` (auth failures are 401, received `>= 400` responses take
the failure branch, and `finalErrorResponse` always sets `success := false`). -/
theorem attemptLoop_ge400_not_success (config : ApiRequestConfig)
    (authOutcome : Except String String) (transport : Nat → AxiosRequest → AxiosOutcome) :
    ∀ remaining attempt,
      400 ≤ (attemptLoop config authOutcome transport attempt remaining).1.status →
      (attemptLoop config authOutcome transport attempt remaining).1.success = false := by
  intro remaining
  induction remaining with
  | zero =>
    intro attempt h
    rw [attemptLoop] at h ⊢
    rcases hr : resolveHeaders config authOutcome with msg | headers <;> simp [hr] at h ⊢
    rcases ht : transport attempt _ with ⟨st, stx, d, hs⟩ | ⟨c, r, m⟩ | ⟨m, sk⟩ | v <;>
      simp [ht, finalErrorResponse] at h ⊢ <;>
      split at h <;> simp_all <;> omega
  | succ rem ih =>
    intro attempt h
    rw [attemptLoop] at h ⊢
    rcases hr : resolveHeaders config authOutcome with msg | headers <;> simp [hr] at h ⊢
    rcases ht : transport attempt _ with ⟨st, stx, d, hs⟩ | ⟨c, r, m⟩ | ⟨m, sk⟩ | v <;>
      simp [ht, finalErrorResponse] at h ⊢ <;>
      split at h <;> simp_all [ih] <;> omega

/-- **C2.** `callApi` never raises for HTTP or network failures — it is a
total function into the `ApiResponse` envelope — and whenever the returned
status is at least 400 the envelope has `success = false`, for every
descriptor, authentication outcome and transport behaviour. -/
theorem claim_C2_envelope_ge400 (config : ApiRequestConfig)
    (authOutcome : Except String String) (transport : Nat → AxiosRequest → AxiosOutcome)
    (h : 400 ≤ (callApi config authOutcome transport).1.status) :
    (callApi config authOutcome transport).1.success = false := by
  unfold callApi at h ⊢
  exact attemptLoop_ge400_not_success config authOutcome transport _ 0 h

/-- Witness for C2: a transport that resolves with HTTP 404 yields a
`success = false` envelope with status 404. -/
theorem claim_C2_envelope_ge400_witness :
    400 ≤ (callApi { endpoint := "http://h", method := "GET", authType := .noAuth }
             (.ok "") (fun _ _ => .resolved 404 "Not Found" (.obj []) [])).1.status
    ∧ (callApi { endpoint := "http://h", method := "GET", authType := .noAuth }
         (.ok "") (fun _ _ => .resolved 404 "Not Found" (.obj []) [])).1.success = false :=
  ⟨by decide,
    claim_C2_envelope_ge400 _ _ _ (by decide)⟩

/-- Concrete descriptor for the C1 counterexample: `maxRetries = 2`, no
authentication. -/
def c1Config : ApiRequestConfig :=
  { endpoint := "http://h", method := "GET", authType := .noAuth, retryCount := some 2 }

/-- Transport for the C1 counterexample: the HTTP transport *yields a 503
response* (a response is received, so under `validateStatus: () => true`
the axios promise resolves) on the first two attempts and would succeed
with 200 on the third. -/
def c1Transport : Nat → AxiosRequest → AxiosOutcome := fun attempt _ =>
  if attempt = 0 ∨ attempt = 1 then .resolved 503 "Service Unavailable" (.obj []) []
  else .resolved 200 "OK" (.obj []) []

/-- **C1 counterexample.** With `maxRetries = 2` and a transport that yields
an HTTP 503 *response* on the first two attempts and 200 on the third,
`callApi` does **not** return success after three attempts: a received 503
response resolves (because of `validateStatus: () => true`), is caught by
the `status >= 400` check, and is returned immediately as `success:false`
with status 503 after exactly one transport invocation — received
502/503/504 responses are never retried. -/
theorem claim_C1_counterexample :
    (callApi c1Config (.ok "") c1Transport).1.success = false
    ∧ (callApi c1Config (.ok "") c1Transport).1.status = 503
    ∧ (callApi c1Config (.ok "") c1Transport).2 = 1 :=
  ⟨rfl, rfl, rfl⟩

/-- **C1 (amended).** The retry behaviour the code actually has: if the
transport *throws* an error carrying a 503 response (as the spec's stub
scenario does) on the first two attempts and resolves with 200 on the
third, then — provided the retry budget `config.retryCount || 3` is at
least 2 and authentication does not fail — `callApi` returns `success:true`
with status 200 and the transport is invoked exactly 3 times. -/
theorem claim_C1_retry_on_thrown_503 (config : ApiRequestConfig)
    (authOutcome : Except String String) (transport : Nat → AxiosRequest → AxiosOutcome)
    (c0 c1 : Option String) (r0 r1 : AxiosErrorResponse) (m0 m1 : String)
    (st2 : String) (d2 : Json) (hd2 : List (String × String))
    (hretry : 2 ≤ jsOrNat config.retryCount 3)
    (hauth : config.authType = .noAuth ∨ ∃ h, authOutcome = Except.ok h)
    (h503a : r0.status = 503) (h503b : r1.status = 503)
    (ht0 : ∀ req, transport 0 req = .axiosError c0 (some r0) m0)
    (ht1 : ∀ req, transport 1 req = .axiosError c1 (some r1) m1)
    (ht2 : ∀ req, transport 2 req = .resolved 200 st2 d2 hd2) :
    (callApi config authOutcome transport).1.success = true
    ∧ (callApi config authOutcome transport).1.status = 200
    ∧ (callApi config authOutcome transport).2 = 3 := by
  obtain ⟨hs, hhs⟩ : ∃ hs, resolveHeaders config authOutcome = Except.ok hs := by
    rcases hauth with hna | ⟨h, hok⟩
    · exact ⟨config.headers, by simp [resolveHeaders, hna]⟩
    · by_cases hna : config.authType = .noAuth
      · exact ⟨config.headers, by simp [resolveHeaders, hna]⟩
      · exact ⟨if h = "" then config.headers else setKey config.headers "Authorization" h,
          by simp [resolveHeaders, hna, hok]⟩
  obtain ⟨R, hR⟩ := Nat.exists_eq_add_of_le hretry
  have hR2 : jsOrNat config.retryCount 3 = R + 2 := by omega
  have key : callApi config authOutcome transport
      = ({ success := true, status := 200, data := some d2, headers := some hd2 }, 3) := by
    unfold callApi
    rw [hR2]
    rw [attemptLoop]
    simp only [hhs]
    simp +decide [ht0, isTransientError, h503a]
    rw [attemptLoop]
    simp only [hhs]
    simp +decide [ht1, isTransientError, h503b]
    rw [attemptLoop]
    simp only [hhs]
    simp +decide [ht2]
  rw [key]
  exact ⟨rfl, rfl, rfl⟩

/-- Witness transport for C1 (amended): throws an `AxiosError` carrying a
503 response on attempts 0 and 1, resolves 200 on attempt 2. -/
def c1wTransport : Nat → AxiosRequest → AxiosOutcome := fun attempt _ =>
  if attempt = 0 then .axiosError none (some ⟨503, .obj [], []⟩) "Request failed with status code 503"
  else if attempt = 1 then .axiosError none (some ⟨503, .obj [], []⟩) "Request failed with status code 503"
  else .resolved 200 "OK" (.obj []) []

/-- Witness for C1 (amended) at a concrete descriptor and transport. -/
theorem claim_C1_retry_on_thrown_503_witness :
    2 ≤ jsOrNat (c1Config.retryCount) 3
    ∧ ((callApi c1Config (.ok "") c1wTransport).1.success = true
       ∧ (callApi c1Config (.ok "") c1wTransport).1.status = 200
       ∧ (callApi c1Config (.ok "") c1wTransport).2 = 3) :=
  ⟨by decide,
    claim_C1_retry_on_thrown_503 c1Config (.ok "") c1wTransport
      none none ⟨503, .obj [], []⟩ ⟨503, .obj [], []⟩
      "Request failed with status code 503" "Request failed with status code 503"
      "OK" (.obj []) []
      (by decide) (Or.inl rfl) rfl rfl
      (fun req => rfl) (fun req => rfl) (fun req => rfl)⟩

/-- **C9.** `config.retryCount || 3` treats an explicit `retryCount: 0` the
same as unspecified: with `retryCount = 0` and a transport that always
throws a network error (no response received), `callApi` still performs
4 transport invocations (1 initial + 3 retries) and then fails. -/
theorem claim_C9_retryCount_zero_means_three (config : ApiRequestConfig)
    (authOutcome : Except String String) (transport : Nat → AxiosRequest → AxiosOutcome)
    (h0 : config.retryCount = some 0)
    (hauth : config.authType = .noAuth ∨ ∃ h, authOutcome = Except.ok h)
    (htr : ∀ i req, transport i req = .axiosError none none "Network Error") :
    (callApi config authOutcome transport).2 = 4
    ∧ (callApi config authOutcome transport).1.success = false := by
  obtain ⟨hs, hhs⟩ : ∃ hs, resolveHeaders config authOutcome = Except.ok hs := by
    rcases hauth with hna | ⟨h, hok⟩
    · exact ⟨config.headers, by simp [resolveHeaders, hna]⟩
    · by_cases hna : config.authType = .noAuth
      · exact ⟨config.headers, by simp [resolveHeaders, hna]⟩
      · exact ⟨if h = "" then config.headers else setKey config.headers "Authorization" h,
          by simp [resolveHeaders, hna, hok]⟩
  have hmax : jsOrNat config.retryCount 3 = 3 := by simp [jsOrNat, h0]
  have key : callApi config authOutcome transport
      = (finalErrorResponse (.axiosError none none "Network Error"), 4) := by
    unfold callApi
    rw [hmax]
    rw [attemptLoop]
    simp only [hhs]
    simp +decide [htr, isTransientError]
    rw [attemptLoop]
    simp only [hhs]
    simp +decide [htr, isTransientError]
    rw [attemptLoop]
    simp only [hhs]
    simp +decide [htr, isTransientError]
    rw [attemptLoop]
    simp only [hhs]
    simp +decide [htr, isTransientError]
  rw [key]
  exact ⟨rfl, rfl⟩

/-- Concrete descriptor with an explicit `retryCount: 0` (for the C9
witness). -/
def c9wConfig : ApiRequestConfig :=
  { endpoint := "http://h", method := "GET", authType := .noAuth, retryCount := some 0 }

/-- Persistent network-error transport (for the C9 witness). -/
def c9wTransport : Nat → AxiosRequest → AxiosOutcome :=
  fun _ _ => .axiosError none none "Network Error"

/-- Witness for C9: a concrete `retryCount: 0` descriptor under persistent
network errors makes exactly 4 transport invocations. -/
theorem claim_C9_retryCount_zero_means_three_witness :
    c9wConfig.retryCount = some 0
    ∧ ((callApi c9wConfig (.ok "") c9wTransport).2 = 4
       ∧ (callApi c9wConfig (.ok "") c9wTransport).1.success = false) :=
  ⟨rfl,
    claim_C9_retryCount_zero_means_three c9wConfig (.ok "") c9wTransport
      rfl (Or.inl rfl) (fun i req => rfl)⟩

/-! ## Token manager (`getAccessToken` / `acquireTokenWithNativeBroker`)

Embedded from the token-manager source reproduced in
`src/api-tools/README.md` (lines 195–280): a process-wide in-memory map
from `clientId|tenantId` to `{token, expiresAt}`; a cached entry is used
while `expiresAt > now`, where `expiresAt` was stored as the token's expiry
minus a 5-minute safety buffer.  The interactive broker acquisition
(`pca.acquireTokenInteractive`) is an oracle producing the access token and
its `expiresOn` epoch-milliseconds, or throwing. -/

/-- `TokenCacheEntry` of the token manager. -/
structure TokenCacheEntry where
  token : String
  expiresAt : Int
deriving Repr, DecidableEq

/-- `createCacheKey(clientId, tenantId)`. -/
def createCacheKey (clientId tenantId : String) : String :=
  clientId ++ "|" ++ tenantId

/-- `acquireTokenWithNativeBroker`: performs the interactive acquisition
(oracle), rejects a missing access token, stores the token with
`expiresAt = expirationTime - 5 * 60 * 1000`, and returns it.  Result:
token, updated cache. -/
def acquireTokenWithNativeBroker (cache : List (String × TokenCacheEntry))
    (cacheKey : String) (broker : Except String (String × Int)) :
    Except String (String × List (String × TokenCacheEntry)) :=
  match broker with
  | .error msg => .error msg
  | .ok (accessToken, expirationTime) =>
    if accessToken = "" then .error "Failed to acquire token with native broker"
    else
      let expiresAt := expirationTime - 5 * 60 * 1000
      .ok (accessToken, setKey cache cacheKey { token := accessToken, expiresAt := expiresAt })

/-- `getAccessToken(clientId, tenantId, scopes)` at time `now`, over an
explicit cache state.  `envClientId`/`envTenantId` model the
`AZURE_CLIENT_ID`/`AZURE_TENANT_ID` environment fallbacks.  Returns the
token, the updated cache and the number of acquisition calls made to the
identity collaborator (0 on a cache hit, 1 otherwise). -/
def getAccessToken (cache : List (String × TokenCacheEntry)) (now : Int)
    (clientId tenantId : Option String) (envClientId envTenantId : Option String)
    (scopes : Option (List String)) (broker : Except String (String × Int)) :
    Except String (String × List (String × TokenCacheEntry) × Nat) :=
  let resolvedClientId := jsOrStr clientId (jsOrStr envClientId "")
  let resolvedTenantId := jsOrStr tenantId (jsOrStr envTenantId "common")
  if resolvedClientId = "" then
    .error "Client ID is required. Provide it as a parameter or set AZURE_CLIENT_ID environment variable."
  else
    let cacheKey := createCacheKey resolvedClientId resolvedTenantId
    match lookupKey cache cacheKey with
    | some cachedEntry =>
      if now < cachedEntry.expiresAt then .ok (cachedEntry.token, cache, 0)
      else
        match acquireTokenWithNativeBroker cache cacheKey broker with
        | .ok (tok, cache2) => .ok (tok, cache2, 1)
        | .error msg => .error ("Failed to acquire access token: " ++ msg)
    | none =>
      match acquireTokenWithNativeBroker cache cacheKey broker with
      | .ok (tok, cache2) => .ok (tok, cache2, 1)
      | .error msg => .error ("Failed to acquire access token: " ++ msg)

/-- **C4.** Token cache behaviour: after a first successful acquisition at
time `t0` (token `tok`, broker expiry `E`), a second sequential
`getAccessToken` call with the same `(clientId, tenantId)` pair at time
`t1 < E - 5min` returns the cached token with **zero** additional
acquisition calls (whatever the second broker oracle would do), and a
second call at `t1 ≥ E - 5min` misses the cache and performs exactly one
new acquisition: the entry is valid exactly while `now < expiry - 5min`. -/
theorem claim_C4_token_cache (t0 t1 t1' E E2 : Int) (cid tid tok tok2 : String)
    (envC envT : Option String) (scopes : Option (List String))
    (broker2 : Except String (String × Int))
    (hcid : cid ≠ "") (htid : tid ≠ "") (htok : tok ≠ "") (htok2 : tok2 ≠ "")
    (hfresh : t1 < E - 5 * 60 * 1000) (hstale : E - 5 * 60 * 1000 ≤ t1') :
    ∃ cache1,
      getAccessToken [] t0 (some cid) (some tid) envC envT scopes (.ok (tok, E))
        = .ok (tok, cache1, 1)
      ∧ getAccessToken cache1 t1 (some cid) (some tid) envC envT scopes broker2
          = .ok (tok, cache1, 0)
      ∧ (∃ cache2,
          getAccessToken cache1 t1' (some cid) (some tid) envC envT scopes (.ok (tok2, E2))
            = .ok (tok2, cache2, 1)) := by
  refine ⟨[(createCacheKey cid tid, { token := tok, expiresAt := E - 5 * 60 * 1000 })], ?_, ?_, ?_⟩
  · simp [getAccessToken, jsOrStr, hcid, htid, acquireTokenWithNativeBroker, htok,
      lookupKey, setKey]
  · have hlt : t1 < E - 5 * 60 * 1000 := hfresh
    simp [getAccessToken, jsOrStr, hcid, htid, lookupKey, hlt]
    intro hcontra
    omega
  · refine ⟨[(createCacheKey cid tid, { token := tok2, expiresAt := E2 - 5 * 60 * 1000 })], ?_⟩
    have hge : ¬ t1' < E - 5 * 60 * 1000 := by omega
    simp [getAccessToken, jsOrStr, hcid, htid, lookupKey, hge,
      acquireTokenWithNativeBroker, htok2, setKey]
    omega

/-- Witness for C4 at concrete times and identities: acquisition at time 0
with expiry 10\x7b6 ms; a cache hit at time 1000 and a miss at the buffer
boundary. -/
theorem claim_C4_token_cache_witness :
    ("c" : String) ≠ "" ∧ ("t" : String) ≠ ""
    ∧ ("tA" : String) ≠ "" ∧ ("tB" : String) ≠ ""
    ∧ (1000 : Int) < 1000000 - 5 * 60 * 1000
    ∧ 1000000 - 5 * 60 * 1000 ≤ (700000 : Int)
    ∧ (∃ cache1,
        getAccessToken [] 0 (some "c") (some "t") none none none (.ok ("tA", 1000000))
          = .ok ("tA", cache1, 1)
        ∧ getAccessToken cache1 1000 (some "c") (some "t") none none none
            (.ok ("tB", 2000000)) = .ok ("tA", cache1, 0)
        ∧ (∃ cache2,
            getAccessToken cache1 700000 (some "c") (some "t") none none none
              (.ok ("tB", 2000000)) = .ok ("tB", cache2, 1))) :=
  ⟨by decide, by decide, by decide, by decide, by decide, by decide,
    claim_C4_token_cache 0 1000 700000 1000000 2000000 "c" "t" "tA" "tB"
      none none none (.ok ("tB", 2000000))
      (by decide) (by decide) (by decide) (by decide) (by decide) (by decide)⟩

/-! ## OpenAPI service (`openapi-service.ts`)

`OpenApiService.parseSchema` (lines 97–148) walks `schema.paths`, collects
one operation per HTTP-method key (`get/post/put/delete/patch/options/head`)
under each path, keeps only paths with at least one operation, and caches
the parsed result under `schema.info?.title || 'schema'`.
`OpenApiService.fetchSchema` (lines 35–70) consults the same cache **by
URL**, fetches the document over `ApiService.callApi`, dereferences it with
`SwaggerParser.dereference` (falling back to `SwaggerParser.bundle`) and
parses it.  SwaggerParser is external and modelled as oracle outcomes. -/

/-- `OpenApiOperation` of `openapi-service.ts` (non-method fields keep
their raw JSON values). -/
structure OpenApiOperation where
  operationId : Json
  summary : Json
  description : Json
  parameters : Json
  requestBody : Json
  responses : Json
  tags : Json
  method : String

/-- `OpenApiEndpoint` of `openapi-service.ts`. -/
structure OpenApiEndpoint where
  path : String
  operations : List OpenApiOperation

/-- `ParsedSchema` of `openapi-service.ts`. -/
structure ParsedSchema where
  title : Json
  version : Json
  description : Json
  endpoints : List OpenApiEndpoint
  definitions : Json
  basePath : Json
  host : Json

/-- JavaScript `s.toUpperCase()` for the ASCII method names it is applied
to (character-wise upper-casing). -/
def jsToUpper (s : String) : String := String.mk (s.data.map Char.toUpper)

/-- The HTTP-method whitelist of `parseSchema` (line 118). -/
def httpMethods : List String :=
  ["get", "post", "put", "delete", "patch", "options", "head"]

/-- The operations of one path item: one entry per truthy HTTP-method key,
in whitelist order, with `method` upper-cased (lines 120–134).  A sibling
key such as `parameters` is not in the whitelist and is never consulted. -/
def operationsOfPathItem (pathItem : Json) : List OpenApiOperation :=
  httpMethods.filterMap (fun method =>
    if truthy (getField pathItem method) then
      some { operationId := getField (getField pathItem method) "operationId",
             summary := getField (getField pathItem method) "summary",
             description := getField (getField pathItem method) "description",
             parameters := getField (getField pathItem method) "parameters",
             requestBody := getField (getField pathItem method) "requestBody",
             responses := getField (getField pathItem method) "responses",
             tags := getField (getField pathItem method) "tags",
             method := jsToUpper method }
    else none)

/-- The endpoint list of `parseSchema`: every path entry (in object order)
whose operation list is non-empty (lines 113–142). -/
def parseEndpoints (paths : List (String × Json)) : List OpenApiEndpoint :=
  paths.filterMap (fun p =>
    let operations := operationsOfPathItem p.2
    if operations.length > 0 then some { path := p.1, operations := operations }
    else none)

/-- The entries of `schema.paths` (`for (const path in paths)` over
`schema.paths || {}`). -/
def pathEntries (schema : Json) : List (String × Json) :=
  match jsOr (getField schema "paths") (.obj []) with
  | .obj l => l
  | _ => []

/-- The pure part of `parseSchema`: builds the `ParsedSchema` record
(`info`, endpoints, `definitions || components?.schemas`, `basePath`,
`host`). -/
def parseSchemaPure (schema : Json) : ParsedSchema :=
  { title := getField (getField schema "info") "title",
    version := getField (getField schema "info") "version",
    description := getField (getField schema "info") "description",
    endpoints := parseEndpoints (pathEntries schema),
    definitions := jsOr (getField schema "definitions")
      (getField (getField schema "components") "schemas"),
    basePath := getField schema "basePath",
    host := getField schema "host" }

/-- The cache key written by `parseSchema` (line 145):
`schema.info?.title || 'schema'`, string-coerced as a property key. -/
def schemaCacheKey (schema : Json) : String :=
  jsToStr (jsOr (getField (getField schema "info") "title") (.str "schema"))

/-- `parseSchema` with its cache side effect: returns the parsed schema and
writes it into the cache under `schemaCacheKey`. -/
def parseSchema (cache : List (String × ParsedSchema)) (schema : Json) :
    ParsedSchema × List (String × ParsedSchema) :=
  let parsedSchema := parseSchemaPure schema
  (parsedSchema, setKey cache (schemaCacheKey schema) parsedSchema)

/-- `OpenApiService.fetchSchema(url, ...)` over an explicit cache state.
`fetched` is the transport outcome for the schema document (error for a
failed `callApi`), `deref`/`bundled` the `SwaggerParser.dereference` /
`SwaggerParser.bundle` oracle outcomes.  Returns the parsed schema, the new
cache and the number of network fetches performed (0 on a cache hit). -/
def fetchSchema (cache : List (String × ParsedSchema)) (url : String)
    (fetched : Except String Json) (deref : Except String Json)
    (bundled : Except String Json) :
    Except String (ParsedSchema × List (String × ParsedSchema) × Nat) :=
  match lookupKey cache url with
  | some cached => .ok (cached, cache, 0)
  | none =>
    match fetched with
    | .error e =>
      .error ("Failed to fetch or parse OpenAPI schema: "
        ++ ("Failed to fetch OpenAPI schema: " ++ e))
    | .ok _schemaDoc =>
      match deref with
      | .ok d =>
        let pc := parseSchema cache d
        .ok (pc.1, pc.2, 1)
      | .error _ =>
        match bundled with
        | .ok b =>
          let pc := parseSchema cache b
          .ok (pc.1, pc.2, 1)
        | .error e2 => .error ("Failed to fetch or parse OpenAPI schema: " ++ e2)

/-- `filterMap` with an if-some-else-none body has as many results as the
filter has survivors. -/
theorem length_filterMap_ite {α β : Type} (l : List α) (p : α → Bool) (f : α → β) :
    (l.filterMap (fun a => if p a then some (f a) else none)).length
      = (l.filter p).length := by
  induction l with
  | nil => rfl
  | cons x xs ih =>
    by_cases hx : p x <;> simp [List.filterMap_cons, List.filter_cons, hx, ih]

/-- A concrete path item with a `get` operation and a `parameters` sibling
(for C8). -/
def c8PathItem : Json :=
  .obj [("get", .obj [("operationId", .str "listItems")]),
        ("parameters", .arr [.obj [("name", .str "id"), ("in", .str "query")]])]

/-- **C8.** OpenAPI indexing: a path item with one `get` operation and a
`parameters` sibling yields exactly one indexed operation (`GET`); every
indexed operation's method comes from upper-casing the HTTP-method
whitelist, so a pseudo-operation named `parameters` never appears; the
number of operations equals the number of truthy HTTP-method keys; and path
entries with no operations are omitted from the endpoint list. -/
theorem claim_C8_indexing (pathItem : Json) (p : String) (item : Json)
    (rest : List (String × Json)) (op : OpenApiOperation)
    (hop : op ∈ operationsOfPathItem pathItem)
    (hempty : operationsOfPathItem item = []) :
    ((operationsOfPathItem c8PathItem).length = 1
      ∧ (operationsOfPathItem c8PathItem).map (fun o => o.method) = ["GET"])
    ∧ (op.method ∈ ["GET", "POST", "PUT", "DELETE", "PATCH", "OPTIONS", "HEAD"]
       ∧ op.method ≠ "parameters" ∧ op.method ≠ "PARAMETERS")
    ∧ (operationsOfPathItem pathItem).length
        = (httpMethods.filter (fun m => truthy (getField pathItem m))).length
    ∧ parseEndpoints ((p, item) :: rest) = parseEndpoints rest := by
  refine ⟨⟨rfl, rfl⟩, ?_, ?_, ?_⟩
  · unfold operationsOfPathItem at hop
    rw [List.mem_filterMap] at hop
    obtain ⟨m, hm, hsome⟩ := hop
    have hmeth : op.method = jsToUpper m := by
      by_cases ht : truthy (getField pathItem m) <;> simp [ht] at hsome
      rw [← hsome]
    fin_cases hm <;> rw [hmeth] <;> refine ⟨by decide, by decide, by decide⟩
  · exact length_filterMap_ite httpMethods _ _
  · simp [parseEndpoints, List.filterMap_cons, hempty]

/-- Witness for C8 at the concrete path item (which has a member operation)
and an operation-free path item. -/
theorem claim_C8_indexing_witness :
    (∃ op, op ∈ operationsOfPathItem c8PathItem)
    ∧ operationsOfPathItem (.obj [("parameters", .arr [])]) = []
    ∧ parseEndpoints [("/items", .obj [("parameters", .arr [])])] = parseEndpoints [] := by
  refine ⟨⟨{ operationId := .str "listItems", summary := .undefined, description := .undefined,
             parameters := .undefined, requestBody := .undefined, responses := .undefined,
             tags := .undefined, method := "GET" }, ?_⟩, rfl, ?_⟩
  · have hlist : operationsOfPathItem c8PathItem
        = [{ operationId := .str "listItems", summary := .undefined, description := .undefined,
             parameters := .undefined, requestBody := .undefined, responses := .undefined,
             tags := .undefined, method := "GET" }] := rfl
    rw [hlist]
    exact List.mem_singleton.mpr rfl
  · exact (claim_C8_indexing c8PathItem "/items" (.obj [("parameters", .arr [])]) []
      { operationId := .str "listItems", summary := .undefined, description := .undefined,
        parameters := .undefined, requestBody := .undefined, responses := .undefined,
        tags := .undefined, method := "GET" }
      (by
        have hlist : operationsOfPathItem c8PathItem
            = [{ operationId := .str "listItems", summary := .undefined, description := .undefined,
                 parameters := .undefined, requestBody := .undefined, responses := .undefined,
                 tags := .undefined, method := "GET" }] := rfl
        rw [hlist]
        exact List.mem_singleton.mpr rfl) rfl).2.2.2

/-- `setKey` only changes the binding of the key it writes. -/
theorem lookupKey_setKey_ne {α : Type} (l : List (String × α)) (k k' : String) (v : α)
    (h : k' ≠ k) : lookupKey (setKey l k v) k' = lookupKey l k' := by
  induction l with
  | nil =>
    have hne : ¬ k = k' := fun hh => h hh.symm
    simp [setKey, lookupKey, hne]
  | cons p t ih =>
    cases p with
    | mk k0 v0 =>
      by_cases hk : k0 = k
      · subst hk
        have hne : k0 ≠ k' := fun hh => h hh.symm
        simp [setKey, lookupKey, hne]
      · simp [setKey, lookupKey, hk, ih]

/-- **C10.** The schema cache written by `parseSchema` is keyed by
`info.title || 'schema'`, never by the source URL: any cache key whose
binding changes is exactly `schemaCacheKey`.  Consequently, when the
dereferenced document's cache key differs from the URL, two sequential
`fetchSchema` calls for that URL *both* perform a network fetch (count 1
each) — the first call's write cannot be found by the second call's
URL-keyed lookup. -/
theorem claim_C10_cache_key_mismatch (url : String) (doc d : Json)
    (bundled : Except String Json)
    (hkey : schemaCacheKey d ≠ url) :
    (∀ cache schema k, lookupKey (parseSchema cache schema).2 k ≠ lookupKey cache k →
       k = schemaCacheKey schema)
    ∧ fetchSchema [] url (.ok doc) (.ok d) bundled
        = .ok (parseSchemaPure d, [(schemaCacheKey d, parseSchemaPure d)], 1)
    ∧ fetchSchema [(schemaCacheKey d, parseSchemaPure d)] url (.ok doc) (.ok d) bundled
        = .ok (parseSchemaPure d,
               [(schemaCacheKey d, parseSchemaPure d)], 1) := by
  refine ⟨?_, ?_, ?_⟩
  · intro cache schema k hne
    by_contra hk
    exact hne (lookupKey_setKey_ne cache (schemaCacheKey schema) k (parseSchemaPure schema) hk)
  · simp [fetchSchema, lookupKey, parseSchema, setKey]
  · have hmiss : lookupKey [(schemaCacheKey d, parseSchemaPure d)] url = none := by
      simp [lookupKey, hkey]
    simp [fetchSchema, hmiss, parseSchema, setKey]

/-- Witness for C10: a document whose `info.title` is `"Petstore"`,
requested from `"http://spec"`; both sequential fetches hit the network. -/
theorem claim_C10_cache_key_mismatch_witness :
    schemaCacheKey (.obj [("info", .obj [("title", .str "Petstore")])]) ≠ "http://spec"
    ∧ ((∀ cache schema k,
          lookupKey (parseSchema cache schema).2 k ≠ lookupKey cache k →
          k = schemaCacheKey schema)
       ∧ fetchSchema [] "http://spec"
           (.ok (.obj [("info", .obj [("title", .str "Petstore")])]))
           (.ok (.obj [("info", .obj [("title", .str "Petstore")])])) (.ok .undefined)
           = .ok (parseSchemaPure (.obj [("info", .obj [("title", .str "Petstore")])]),
                  [(schemaCacheKey (.obj [("info", .obj [("title", .str "Petstore")])]),
                    parseSchemaPure (.obj [("info", .obj [("title", .str "Petstore")])]))], 1)
       ∧ fetchSchema
           [(schemaCacheKey (.obj [("info", .obj [("title", .str "Petstore")])]),
             parseSchemaPure (.obj [("info", .obj [("title", .str "Petstore")])]))]
           "http://spec"
           (.ok (.obj [("info", .obj [("title", .str "Petstore")])]))
           (.ok (.obj [("info", .obj [("title", .str "Petstore")])])) (.ok .undefined)
           = .ok (parseSchemaPure (.obj [("info", .obj [("title", .str "Petstore")])]),
                  [(schemaCacheKey (.obj [("info", .obj [("title", .str "Petstore")])]),
                    parseSchemaPure (.obj [("info", .obj [("title", .str "Petstore")])]))], 1)) := by
  have hkey : schemaCacheKey (.obj [("info", .obj [("title", .str "Petstore")])])
      ≠ "http://spec" := by
    have : schemaCacheKey (.obj [("info", .obj [("title", .str "Petstore")])])
        = "Petstore" := rfl
    rw [this]
    decide
  exact ⟨hkey,
    claim_C10_cache_key_mismatch "http://spec"
      (.obj [("info", .obj [("title", .str "Petstore")])])
      (.obj [("info", .obj [("title", .str "Petstore")])]) (.ok .undefined) hkey⟩

/-! ## Schema example generator (`generateApiCallTool.ts`, lines 137–209)

`generateSchemaExample(schema)` is recursive over a JSON-Schema-shaped
value.  The JavaScript original can throw in exactly one place: the
`for (const subSchema of schema.allOf)` loop throws a `TypeError` when a
truthy `allOf` is neither an array nor a string (plain objects and numbers
are not iterable); this is modelled with `Except String`.  Two iteration
corner cases are resolved up front, justified by the JavaScript semantics:

* a truthy **string** `allOf` iterates over its characters; each character
  is a non-empty string with no properties, so its example is `undefined`,
  which is never object-merged — the loop leaves the accumulator `{}`;
* a truthy **string** `properties` has entries `("0", c0), ("1", c1), …`
  with one-character-string values whose examples are likewise `undefined`,
  so the result maps each index key to `undefined`.
-/

mutual

/-- Structural size of a `Json` value (termination measure for the
generator). -/
def jsize : Json → Nat
  | .arr l => 1 + jsizeList l
  | .obj l => 1 + jsizeFields l
  | _ => 1

/-- Sum of sizes of a list of values. -/
def jsizeList : List Json → Nat
  | [] => 0
  | x :: xs => jsize x + jsizeList xs

/-- Sum of sizes of the values of a field list. -/
def jsizeFields : List (String × Json) → Nat
  | [] => 0
  | (_, v) :: ps => jsize v + jsizeFields ps

end

theorem jsize_pos (j : Json) : 1 ≤ jsize j := by
  cases j <;> simp [jsize] <;> omega

theorem lookupKey_jsize_le (l : List (String × Json)) (k : String) (v : Json)
    (h : lookupKey l k = some v) : jsize v ≤ jsizeFields l := by
  induction l with
  | nil => simp [lookupKey] at h
  | cons p t ih =>
    cases p with
    | mk k0 v0 =>
      by_cases hk : k0 = k
      · simp [lookupKey, hk] at h
        simp [jsizeFields, ← h]
      · simp [lookupKey, hk] at h
        have := ih h
        simp [jsizeFields]
        omega

theorem getField_jsize_lt (j : Json) (k : String)
    (h : truthy (getField j k) = true) : jsize (getField j k) < jsize j := by
  cases j with
  | obj l =>
    rcases hlk : lookupKey l k with _ | v
    · simp [getField, hlk, truthy] at h
    · have hle := lookupKey_jsize_le l k v hlk
      simp [getField, hlk, jsize]
      omega
  | undefined => simp [getField, truthy] at h
  | null => simp [getField, truthy] at h
  | bool b => simp [getField, truthy] at h
  | num n => simp [getField, truthy] at h
  | str s => simp [getField, truthy] at h
  | arr l => simp [getField, truthy] at h

theorem getIdx0_jsize_le (j : Json) : jsize (getIdx0 j) ≤ jsize j := by
  cases j with
  | arr l =>
    cases l with
    | nil => simp [getIdx0, jsize]
    | cons x xs => simp [getIdx0, jsize, jsizeList]; have := jsize_pos x; omega
  | str s =>
    rcases hd : s.data with _ | ⟨c, cs⟩ <;> simp [getIdx0, hd, jsize]
  | obj l =>
    rcases hlk : lookupKey l "0" with _ | v
    · simp [getIdx0, hlk, jsize]
    · have hle := lookupKey_jsize_le l "0" v hlk
      simp [getIdx0, hlk, jsize]
      omega
  | undefined => simp [getIdx0, jsize]
  | null => simp [getIdx0, jsize]
  | bool b => simp [getIdx0, jsize]
  | num n => simp [getIdx0, jsize]

theorem jsOr_getField_jsize_lt (s : Json) (k1 k2 : String)
    (h : truthy (jsOr (getField s k1) (getField s k2)) = true) :
    jsize (jsOr (getField s k1) (getField s k2)) < jsize s := by
  unfold jsOr at h ⊢
  by_cases h1 : truthy (getField s k1) = true
  · simpa [h1] using getField_jsize_lt s k1 h1
  · simp [h1] at h ⊢
    exact getField_jsize_lt s k2 h

/-- `Object.entries` of an array value: index keys with the elements. -/
def indexProps : Nat → List Json → List (String × Json)
  | _, [] => []
  | i, x :: xs => (toString i, x) :: indexProps (i + 1) xs

/-- Index keys each mapped to `undefined` (the entries of a string value
after the generator has been applied to each one-character string). -/
def indexUndefined : Nat → List Char → List (String × Json)
  | _, [] => []
  | i, _ :: cs => (toString i, Json.undefined) :: indexUndefined (i + 1) cs

theorem jsizeFields_indexProps (i : Nat) (l : List Json) :
    jsizeFields (indexProps i l) = jsizeList l := by
  induction l generalizing i with
  | nil => simp [indexProps, jsizeFields, jsizeList]
  | cons x xs ih => simp [indexProps, jsizeFields, jsizeList, ih]

/-- `Object.assign(target, source)` for an entry list: assign every entry
into the target in order. -/
def assignAll (target : List (String × Json)) : List (String × Json) → List (String × Json)
  | [] => target
  | (k, v) :: rest => assignAll (setKey target k v) rest

/-- The `allOf` merge step (lines 158–162): `Object.assign` the example
into the accumulator when it is a JavaScript object (`typeof ex ===
'object'` and not `null`: plain objects and arrays); otherwise skip it. -/
def mergeIfObject (result : List (String × Json)) : Json → List (String × Json)
  | .obj l => assignAll result l
  | .arr l => assignAll result (indexProps 0 l)
  | _ => result

mutual

/-- `generateSchemaExample(schema)` (lines 137–209), in source order: falsy
schema → `undefined`; `$ref` → placeholder object; `oneOf`/`anyOf` with a
truthy `length` → recurse into the first alternative only; truthy `allOf` →
iterate and object-merge (TypeError on a non-iterable); otherwise dispatch
on `type` (`object`/`array`/`string`/`number`/`integer`/`boolean`/`null`,
anything else → `undefined`). -/
def generateSchemaExample (schema : Json) : Except String Json :=
  if truthy schema = false then .ok .undefined
  else if truthy (getField schema "$ref") then
    .ok (.obj [("$ref", getField schema "$ref")])
  else if h1 : truthy (jsOr (getField schema "oneOf") (getField schema "anyOf")) = true
      ∧ truthy (lengthOf (jsOr (getField schema "oneOf") (getField schema "anyOf"))) = true then
    generateSchemaExample (getIdx0 (jsOr (getField schema "oneOf") (getField schema "anyOf")))
  else if h2 : truthy (getField schema "allOf") = true then
    match h3 : getField schema "allOf" with
    | .arr l => Except.map Json.obj (genAllOf l [])
    | .str _ => .ok (.obj [])
    | _ => .error "TypeError: schema.allOf is not iterable"
  else
    match getField schema "type" with
    | .str "object" =>
      if hp : truthy (getField schema "properties") = true then
        match hq : getField schema "properties" with
        | .obj l => Except.map Json.obj (genProps l [])
        | .arr l => Except.map Json.obj (genProps (indexProps 0 l) [])
        | .str s => .ok (.obj (indexUndefined 0 s.data))
        | _ => .ok (.obj [])
      else .ok (.obj [])
    | .str "array" =>
      if hi : truthy (getField schema "items") = true then
        Except.map (fun e => Json.arr [e]) (generateSchemaExample (getField schema "items"))
      else .ok (.arr [])
    | .str "string" =>
      if truthy (getField schema "enum") = true
          ∧ truthy (lengthOf (getField schema "enum")) = true then
        .ok (getIdx0 (getField schema "enum"))
      else
        match getField schema "format" with
        | .str "date" => .ok (.str "2023-01-01")
        | .str "date-time" => .ok (.str "2023-01-01T00:00:00Z")
        | .str "email" => .ok (.str "user@example.com")
        | .str "uuid" => .ok (.str "00000000-0000-0000-0000-000000000000")
        | _ => .ok (.str "<string value>")
    | .str "number" =>
      if truthy (getField schema "enum") = true
          ∧ truthy (lengthOf (getField schema "enum")) = true then
        .ok (getIdx0 (getField schema "enum"))
      else .ok (.num 0)
    | .str "integer" =>
      if truthy (getField schema "enum") = true
          ∧ truthy (lengthOf (getField schema "enum")) = true then
        .ok (getIdx0 (getField schema "enum"))
      else .ok (.num 0)
    | .str "boolean" => .ok (.bool false)
    | .str "null" => .ok .null
    | _ => .ok .undefined
termination_by jsize schema
decreasing_by
  · calc jsize (getIdx0 (jsOr (getField schema "oneOf") (getField schema "anyOf")))
        ≤ jsize (jsOr (getField schema "oneOf") (getField schema "anyOf")) :=
          getIdx0_jsize_le _
      _ < jsize schema := jsOr_getField_jsize_lt schema "oneOf" "anyOf" h1.1
  · have := getField_jsize_lt schema "allOf" h2
    rw [h3] at this
    simp [jsize] at this
    omega
  · have := getField_jsize_lt schema "properties" hp
    rw [hq] at this
    simp [jsize] at this
    omega
  · have := getField_jsize_lt schema "properties" hp
    rw [hq] at this
    simp [jsize] at this
    rw [jsizeFields_indexProps]
    omega
  · calc jsize (getField schema "items") < jsize schema := getField_jsize_lt schema "items" hi

/-- The `for (const subSchema of schema.allOf)` loop (lines 156–163) over
an array `allOf`, threading the merge accumulator. -/
def genAllOf : List Json → List (String × Json) → Except String (List (String × Json))
  | [], result => .ok result
  | subSchema :: rest, result =>
    match generateSchemaExample subSchema with
    | .error e => .error e
    | .ok ex => genAllOf rest (mergeIfObject result ex)
termination_by l result => jsizeList l + 1
decreasing_by
  · simp [jsizeList]
    have := jsize_pos subSchema
    omega
  · simp [jsizeList]
    have := jsize_pos subSchema
    omega

/-- The `for (const [propName, propSchema] of Object.entries(...))` loop of
the `object` case (lines 168–175), threading the result object. -/
def genProps : List (String × Json) → List (String × Json) → Except String (List (String × Json))
  | [], result => .ok result
  | (propName, propSchema) :: rest, result =>
    match generateSchemaExample propSchema with
    | .error e => .error e
    | .ok ex => genProps rest (setKey result propName ex)
termination_by ps result => jsizeFields ps + 1
decreasing_by
  · simp [jsizeFields]
    have := jsize_pos propSchema
    omega
  · simp [jsizeFields]
    have := jsize_pos propSchema
    omega

end

/-- **C6.** The generator returns the spec's canonical values:
`example({type:"string", enum:["a","b"]}) = "a"` (first enum value),
`example({type:"object", properties:{x:{type:"integer"}}}) = {x:0}`,
`example({type:"array", items:{type:"boolean"}}) = [false]`; and for
`oneOf`/`anyOf` it recurses into the first listed alternative only, for
every alternative list. -/
theorem claim_C6_canonical_examples (x : Json) (xs : List Json) :
    generateSchemaExample
        (.obj [("type", .str "string"), ("enum", .arr [.str "a", .str "b"])])
      = .ok (.str "a")
    ∧ generateSchemaExample
        (.obj [("type", .str "object"),
               ("properties", .obj [("x", .obj [("type", .str "integer")])])])
      = .ok (.obj [("x", .num 0)])
    ∧ generateSchemaExample
        (.obj [("type", .str "array"), ("items", .obj [("type", .str "boolean")])])
      = .ok (.arr [.bool false])
    ∧ generateSchemaExample (.obj [("oneOf", .arr (x :: xs))]) = generateSchemaExample x
    ∧ generateSchemaExample (.obj [("anyOf", .arr (x :: xs))]) = generateSchemaExample x := by
  refine ⟨?_, ?_, ?_, ?_, ?_⟩
  · rw [generateSchemaExample]
    simp +decide [truthy, getField, lookupKey, jsOr, lengthOf, getIdx0]
  · rw [generateSchemaExample]
    simp +decide [truthy, getField, lookupKey, jsOr, lengthOf, getIdx0, Except.map]
    rw [genProps]
    rw [generateSchemaExample]
    simp +decide [truthy, getField, lookupKey, jsOr, lengthOf, getIdx0]
    rw [genProps]
    simp [setKey, Except.map]
  · rw [generateSchemaExample]
    simp +decide [truthy, getField, lookupKey, jsOr, lengthOf, getIdx0, Except.map]
    rw [generateSchemaExample]
    simp +decide [truthy, getField, lookupKey, jsOr, lengthOf, getIdx0, Except.map]
  · rw [generateSchemaExample]
    simp +decide [truthy, getField, lookupKey, jsOr, lengthOf, getIdx0]
    intro h
    exact absurd h (by omega)
  · rw [generateSchemaExample]
    simp +decide [truthy, getField, lookupKey, jsOr, lengthOf, getIdx0]
    intro h
    exact absurd h (by omega)

/-- **C7 counterexample.** The generator is *not* total over every finite
JSON value: on `{allOf: 5}` the JavaScript original reaches
`for (const subSchema of schema.allOf)` with a non-iterable truthy `allOf`
and throws a `TypeError` (modelled as the `Except.error` result). -/
theorem claim_C7_counterexample :
    generateSchemaExample (.obj [("allOf", .num 5)])
      = .error "TypeError: schema.allOf is not iterable" := by
  rw [generateSchemaExample]
  simp +decide [truthy, getField, lookupKey, jsOr, lengthOf]

/-- A value is acceptable as an `allOf` field: iterable (array or string)
or falsy (in which case the `allOf` branch is not taken). -/
def allOfIterable : Json → Bool
  | .arr _ => true
  | .str _ => true
  | v => !truthy v

mutual

/-- Every (nested) `allOf` field of the value is iterable-or-falsy — the
exact condition under which the generator cannot reach its single `throw`
site. -/
def allOfOk : Json → Bool
  | .obj l => allOfIterable ((lookupKey l "allOf").getD .undefined) && allOfOkFields l
  | .arr l => allOfOkList l
  | _ => true

def allOfOkList : List Json → Bool
  | [] => true
  | x :: xs => allOfOk x && allOfOkList xs

def allOfOkFields : List (String × Json) → Bool
  | [] => true
  | (_, v) :: ps => allOfOk v && allOfOkFields ps

end

theorem exceptMap_isOk {α β : Type} (f : α → β) (e : Except String α) :
    (Except.map f e).isOk = e.isOk := by
  cases e <;> rfl

theorem allOfOkFields_lookup (ps : List (String × Json)) (k : String) (v : Json)
    (hok : allOfOkFields ps = true) (h : lookupKey ps k = some v) :
    allOfOk v = true := by
  induction ps with
  | nil => simp [lookupKey] at h
  | cons p t ih =>
    cases p with
    | mk k0 v0 =>
      rw [allOfOkFields] at hok
      simp only [Bool.and_eq_true] at hok
      by_cases hk : k0 = k
      · simp [lookupKey, hk] at h
        rw [← h]
        exact hok.1
      · simp [lookupKey, hk] at h
        exact ih hok.2 h

theorem allOfOk_getField (j : Json) (k : String) (hok : allOfOk j = true) :
    allOfOk (getField j k) = true := by
  cases j with
  | obj l =>
    rcases hlk : lookupKey l k with _ | v
    · simp [getField, hlk, allOfOk]
    · rw [allOfOk] at hok
      simp only [Bool.and_eq_true] at hok
      simp [getField, hlk]
      exact allOfOkFields_lookup l k v hok.2 hlk
  | undefined => simp [getField, allOfOk]
  | null => simp [getField, allOfOk]
  | bool b => simp [getField, allOfOk]
  | num n => simp [getField, allOfOk]
  | str s => simp [getField, allOfOk]
  | arr l => simp [getField, allOfOk]

theorem allOfOk_getIdx0 (j : Json) (hok : allOfOk j = true) :
    allOfOk (getIdx0 j) = true := by
  cases j with
  | arr l =>
    cases l with
    | nil => simp [getIdx0, allOfOk]
    | cons x xs =>
      rw [allOfOk, allOfOkList] at hok
      simp only [Bool.and_eq_true] at hok
      simpa [getIdx0] using hok.1
  | str s =>
    rcases hd : s.data with _ | ⟨c, cs⟩ <;> simp [getIdx0, hd, allOfOk]
  | obj l =>
    rcases hlk : lookupKey l "0" with _ | v
    · simp [getIdx0, hlk, allOfOk]
    · rw [allOfOk] at hok
      simp only [Bool.and_eq_true] at hok
      simp [getIdx0, hlk]
      exact allOfOkFields_lookup l "0" v hok.2 hlk
  | undefined => simp [getIdx0, allOfOk]
  | null => simp [getIdx0, allOfOk]
  | bool b => simp [getIdx0, allOfOk]
  | num n => simp [getIdx0, allOfOk]

theorem allOfOk_jsOr_getField (j : Json) (k1 k2 : String) (hok : allOfOk j = true) :
    allOfOk (jsOr (getField j k1) (getField j k2)) = true := by
  unfold jsOr
  by_cases h1 : truthy (getField j k1) = true
  · simpa [h1] using allOfOk_getField j k1 hok
  · simp [h1]
    exact allOfOk_getField j k2 hok

theorem allOfOkFields_indexProps (i : Nat) (l : List Json)
    (hok : allOfOkList l = true) : allOfOkFields (indexProps i l) = true := by
  induction l generalizing i with
  | nil => simp [indexProps, allOfOkFields]
  | cons x xs ih =>
    rw [allOfOkList] at hok
    simp only [Bool.and_eq_true] at hok
    simp [indexProps, allOfOkFields, hok.1, ih (i + 1) hok.2]

/-- A truthy field lives inside an object: the parent is an `obj` whose
field list binds the key to that (truthy) value. -/
theorem truthy_getField_obj (j : Json) (k : String)
    (h : truthy (getField j k) = true) :
    ∃ l, j = .obj l ∧ lookupKey l k = some (getField j k) := by
  cases j with
  | obj l =>
    rcases hlk : lookupKey l k with _ | v
    · simp [getField, hlk, truthy] at h
    · exact ⟨l, rfl, by simp [getField, hlk]⟩
  | undefined => simp [getField, truthy] at h
  | null => simp [getField, truthy] at h
  | bool b => simp [getField, truthy] at h
  | num n => simp [getField, truthy] at h
  | str s => simp [getField, truthy] at h
  | arr l => simp [getField, truthy] at h

/-- Main induction for C7: under `allOfOk`, the generator and its two
loops always return `Except.ok`. -/
theorem gen_isOk_of_allOfOk :
    ∀ n : Nat,
      (∀ j, jsize j ≤ n → allOfOk j = true → (generateSchemaExample j).isOk = true)
      ∧ (∀ l acc, jsizeList l + 1 ≤ n → allOfOkList l = true → (genAllOf l acc).isOk = true)
      ∧ (∀ ps acc, jsizeFields ps + 1 ≤ n → allOfOkFields ps = true →
          (genProps ps acc).isOk = true) := by
  intro n
  induction n using Nat.strong_induction_on with
  | _ n IH =>
    have p1 : ∀ j, jsize j ≤ n → allOfOk j = true →
        (generateSchemaExample j).isOk = true := by
      intro j hsize hok
      have hn1 : 1 ≤ n := le_trans (jsize_pos j) hsize
      rw [generateSchemaExample]
      split
      · rfl
      next hft =>
        split
        · rfl
        next href =>
          split
          next h1 =>
            have hlt : jsize (getIdx0 (jsOr (getField j "oneOf") (getField j "anyOf")))
                < jsize j :=
              lt_of_le_of_lt (getIdx0_jsize_le _)
                (jsOr_getField_jsize_lt j "oneOf" "anyOf" h1.1)
            exact (IH (n - 1) (by omega)).1 _ (by omega)
              (allOfOk_getIdx0 _ (allOfOk_jsOr_getField j "oneOf" "anyOf" hok))
          next h1 =>
            split
            next h2 =>
              split
              next l heq =>
                rw [exceptMap_isOk]
                have hszlt := getField_jsize_lt j "allOf" h2
                rw [heq] at hszlt
                rw [jsize] at hszlt
                obtain ⟨fs, hfs, hlk⟩ := truthy_getField_obj j "allOf" h2
                have hokArr : allOfOk (getField j "allOf") = true := allOfOk_getField j "allOf" hok
                rw [heq, allOfOk] at hokArr
                exact (IH (n - 1) (by omega)).2.1 l [] (by omega) hokArr
              next s heq => rfl
              next heq hne =>
                exfalso
                have hit : allOfIterable (getField j "allOf") = true := by
                  obtain ⟨fs, hfs, hlk⟩ := truthy_getField_obj j "allOf" h2
                  have hokJ := hok
                  rw [hfs, allOfOk] at hokJ
                  simp only [Bool.and_eq_true] at hokJ
                  have hfst := hokJ.1
                  rw [hlk] at hfst
                  simpa using hfst
                rcases hval : getField j "allOf" with _ | _ | b | m | s | al | ol
                · rw [hval] at h2; simp [truthy] at h2
                · rw [hval] at h2; simp [truthy] at h2
                · rw [hval] at hit h2
                  simp [allOfIterable, truthy] at hit h2
                  rw [hit] at h2
                  simp at h2
                · rw [hval] at hit h2
                  simp [allOfIterable, truthy] at hit h2
                  omega
                · exact hne s hval
                · exact heq al hval
                · rw [hval] at hit
                  simp [allOfIterable, truthy] at hit
            next h2 =>
              split
              · -- type: "object"
                split
                next hp =>
                  split
                  next l heq =>
                    rw [exceptMap_isOk]
                    have hszlt := getField_jsize_lt j "properties" hp
                    rw [heq, jsize] at hszlt
                    have hokP : allOfOk (getField j "properties") = true :=
                      allOfOk_getField j "properties" hok
                    rw [heq, allOfOk] at hokP
                    simp only [Bool.and_eq_true] at hokP
                    exact (IH (n - 1) (by omega)).2.2 l [] (by omega) hokP.2
                  next l heq =>
                    rw [exceptMap_isOk]
                    have hszlt := getField_jsize_lt j "properties" hp
                    rw [heq, jsize] at hszlt
                    have hokP : allOfOk (getField j "properties") = true :=
                      allOfOk_getField j "properties" hok
                    rw [heq, allOfOk] at hokP
                    exact (IH (n - 1) (by omega)).2.2 (indexProps 0 l) []
                      (by rw [jsizeFields_indexProps]; omega)
                      (allOfOkFields_indexProps 0 l hokP)
                  next s heq => rfl
                  next heq1 heq2 heq3 => rfl
                next hp => rfl
              · -- type: "array"
                split
                next hi =>
                  rw [exceptMap_isOk]
                  have hszlt := getField_jsize_lt j "items" hi
                  exact (IH (n - 1) (by omega)).1 _ (by omega)
                    (allOfOk_getField j "items" hok)
                next hi => rfl
              · -- type: "string"
                split
                · rfl
                · split <;> rfl
              · split <;> rfl
              · split <;> rfl
              · rfl
              · rfl
              · rfl
    have p2 : ∀ l acc, jsizeList l + 1 ≤ n → allOfOkList l = true →
        (genAllOf l acc).isOk = true := by
      intro l acc hsize hok
      induction l generalizing acc with
      | nil => rw [genAllOf]; rfl
      | cons s rest ih =>
        rw [genAllOf]
        rw [jsizeList] at hsize
        rw [allOfOkList] at hok
        simp only [Bool.and_eq_true] at hok
        have hs1 := jsize_pos s
        rcases hgen : generateSchemaExample s with e | ex
        · have hcontra := p1 s (by omega) hok.1
          rw [hgen] at hcontra
          simp [Except.isOk, Except.toBool] at hcontra
        · exact ih (mergeIfObject acc ex) (by omega) hok.2
    have p3 : ∀ ps acc, jsizeFields ps + 1 ≤ n → allOfOkFields ps = true →
        (genProps ps acc).isOk = true := by
      intro ps acc hsize hok
      induction ps generalizing acc with
      | nil => rw [genProps]; rfl
      | cons p rest ih =>
        cases p with
        | mk propName propSchema =>
          rw [genProps]
          rw [jsizeFields] at hsize
          rw [allOfOkFields] at hok
          simp only [Bool.and_eq_true] at hok
          have hs1 := jsize_pos propSchema
          rcases hgen : generateSchemaExample propSchema with e | ex
          · have hcontra := p1 propSchema (by omega) hok.1
            rw [hgen] at hcontra
            simp [Except.isOk, Except.toBool] at hcontra
          · exact ih (setKey acc propName ex) (by omega) hok.2
    exact ⟨p1, p2, p3⟩

/-- **C7 (amended).** The generator terminates on every finite JSON value
(it is a total Lean function), and it returns without throwing — yielding
`undefined` for an unrecognized or absent `type` — for every input in
which each (nested) `allOf` field is an array, a string, or falsy, i.e. as
long as the single `for...of`-over-`allOf` throw site cannot be reached.
(On a truthy non-iterable `allOf` such as `{allOf: 5}` it throws a
`TypeError`, so totality over *arbitrary* finite JSON values fails.) -/
theorem claim_C7_total_on_iterable_allOf (j : Json) (h : allOfOk j = true) :
    (generateSchemaExample j).isOk = true
    ∧ generateSchemaExample (.obj [("type", .str "frobnicate")]) = .ok .undefined
    ∧ generateSchemaExample (.obj [("x", .num 1)]) = .ok .undefined := by
  refine ⟨(gen_isOk_of_allOfOk (jsize j)).1 j le_rfl h, ?_, ?_⟩
  · rw [generateSchemaExample]
    simp +decide [truthy, getField, lookupKey, jsOr, lengthOf]
  · rw [generateSchemaExample]
    simp +decide [truthy, getField, lookupKey, jsOr, lengthOf]

/-- Witness for C7 (amended) at a concrete nested schema (object with an
array-valued `allOf` and nested properties). -/
theorem claim_C7_total_on_iterable_allOf_witness :
    allOfOk (.obj [("allOf", .arr [.obj [("type", .str "object"),
                                         ("properties", .obj [("a", .obj [("type", .str "integer")])])],
                                   .obj [("type", .str "string")]]),
                   ("oneOf", .arr [])]) = true
    ∧ (generateSchemaExample
         (.obj [("allOf", .arr [.obj [("type", .str "object"),
                                      ("properties", .obj [("a", .obj [("type", .str "integer")])])],
                                .obj [("type", .str "string")]]),
                ("oneOf", .arr [])])).isOk = true := by
  refine ⟨by decide, ?_⟩
  exact (claim_C7_total_on_iterable_allOf _ (by decide)).1
